import Mathlib

/-!
# Result reconciliation of the SQLAlchemy roachtest

A shallow embedding of the result-collation loop of `runSQLAlchemy`
(`pkg/cmd/roachtest/sqlalchemy.go`, lines 153-199) together with the result
regular expression `sqlAlchemyResultRegex` (line 22).

Modelling conventions:

* Go strings are Lean `String`s. All literals of the embedded code are ASCII, so
  matching characters instead of bytes gives the same answers on UTF-8 text.
* A Go `map[string]V` is a function `String → Option V`; reading a missing key
  yields the zero value and `ok = false`, assignment overrides one key.
* A Go slice is a `List`; `append(s, x)` is `s ++ [x]`.
* The counters are Go `int`s that receive at most one increment per scanned line
  of an in-memory buffer; they are modelled by `Nat`.
* `rawResults` is UTF-8 text, a Lean `String`; the length of a line in bytes is the
  sum of the UTF-8 sizes of its characters.
* `bufio.NewScanner` is used with its defaults (line 156): the split function is
  `bufio.ScanLines` and a token may not reach `bufio.MaxScanTokenSize` = 64 KiB.
  `scanner.Scan()` returns false at the first line that does not fit, and the code
  never looks at `scanner.Err()`, so the loop ends there.
-/

namespace SQLAlchemy

/-! ## Go maps -/

/-- A Go `map[string]V`, seen through its lookups. -/
abbrev GoMap (V : Type) := String → Option V

/-- The result of `make(map[string]V)`: no key is present. -/
def GoMap.empty {V : Type} : GoMap V := fun _ => none

/-- The assignment `m[k] = v`. -/
def GoMap.assign {V : Type} (m : GoMap V) (k : String) (v : V) : GoMap V :=
  fun x => if x = k then some v else m x

/-- The two-valued index expression `v, ok := m[k]` on a `map[string]string`:
the stored value and `true`, or the zero value `""` and `false`. -/
def GoMap.index (m : GoMap String) (k : String) : String × Bool :=
  match m k with
  | some v => (v, true)
  | none => ("", false)

/-- The type `blacklist` of the roachtest package, a `map[string]string` from test
name to issue reference (used for both the expected-failure and the ignored table). -/
abbrev blacklist := GoMap String

/-! ## The result regular expression -/

/-- Instructions of a compiled regular expression, restricted to the constructs
that occur in `sqlAlchemyResultRegex`. -/
inductive ReInst where
  /-- Beginning of text: `^` without the `m` flag. -/
  | bol : ReInst
  /-- End of text: `$` without the `m` flag. -/
  | eol : ReInst
  /-- A literal character. -/
  | lit (c : Char) : ReInst
  /-- Greedy `x*` for a one-character class `x`. -/
  | star (cls : Char → Bool) : ReInst
  /-- Capture instruction: store the current position in a slot. Group `i`
  spans slots `2*i` and `2*i+1`. -/
  | save (slot : Nat) : ReInst

/-- The class `.` (no `s` flag): every character except the newline. -/
def reDot (c : Char) : Bool := c != '\n'

/-- The class `[^ ]`: every character except the space. -/
def reNotSpace (c : Char) : Bool := c != ' '

/-- Greedy iteration of a character class in a backtracking matcher: consume one
more character of the class if the rest of the expression (the continuation `k`)
still matches afterwards, otherwise stop here. -/
def starLoop (cls : Char → Bool) (k : Nat → List Char → Option (List (Nat × Nat))) :
    Nat → List Char → Option (List (Nat × Nat))
  | pos, [] => k pos []
  | pos, x :: xs =>
    if cls x then
      match starLoop cls k (pos + 1) xs with
      | some caps => some caps
      | none => k pos (x :: xs)
    else k pos (x :: xs)

/-- Backtracking execution of an instruction sequence at position `pos` with the
remaining input `xs`. The answer is the first match in backtracking order (the
match Go's `regexp` package reports), as the list of saved capture slots. -/
def reRun : List ReInst → Nat → List Char → Option (List (Nat × Nat))
  | [], _, _ => some []
  | .bol :: is, pos, xs => if pos = 0 then reRun is pos xs else none
  | .eol :: is, pos, xs => if xs.isEmpty then reRun is pos xs else none
  | .lit _ :: _, _, [] => none
  | .lit c :: is, pos, x :: xs => if x = c then reRun is (pos + 1) xs else none
  | .star cls :: is, pos, xs => starLoop cls (reRun is) pos xs
  | .save slot :: is, pos, xs => (reRun is pos xs).map (fun caps => (slot, pos) :: caps)

/-- Leftmost search: try to match at `pos`, then at every later position. -/
def reFind (re : List ReInst) : Nat → List Char → Option (List (Nat × Nat))
  | pos, [] => reRun re pos []
  | pos, x :: xs =>
    match reRun re pos (x :: xs) with
    | some caps => some caps
    | none => reFind re (pos + 1) xs

/-- Number of parenthesised groups of an instruction sequence. -/
def numSubexp (re : List ReInst) : Nat :=
  (re.filter (fun i => match i with | .save _ => true | _ => false)).length / 2

/-- The position stored in a capture slot. -/
def capSlot (caps : List (Nat × Nat)) (slot : Nat) : Nat :=
  (caps.lookup slot).getD 0

/-- The Go slice expression `s[i:j]`. -/
def strSlice (s : String) (i j : Nat) : String :=
  String.mk ((s.data.drop i).take (j - i))

/-- The whole expression is group 0: its span is stored in slots 0 and 1. -/
def withWholeMatch (re : List ReInst) : List ReInst :=
  .save 0 :: (re ++ [.save 1])

/-- The method `(*Regexp).FindStringSubmatch`: `none` stands for the nil slice (no match);
otherwise element `0` is the whole match and element `i` the text of group `i`. -/
def FindStringSubmatch (re : List ReInst) (s : String) : Option (List String) :=
  (reFind (withWholeMatch re) 0 s.data).map fun caps =>
    (List.range (numSubexp re + 1)).map fun i =>
      strSlice s (capSlot caps (2 * i)) (capSlot caps (2 * i + 1))

/-- The regular expression of line 22:
`^(?P<test>test.*::.*::[^ ]*) (?P<result>.*)$`. -/
def sqlAlchemyResultRegex : List ReInst :=
  [ .bol,
    .save 2,
    .lit 't', .lit 'e', .lit 's', .lit 't', .star reDot,
    .lit ':', .lit ':', .star reDot,
    .lit ':', .lit ':', .star reNotSpace,
    .save 3,
    .lit ' ',
    .save 4,
    .star reDot,
    .save 5,
    .eol ]

/-! ## Strings -/

/-- Is there a position of `s` at which `substr` starts? -/
def containsFrom (substr : List Char) : List Char → Bool
  | [] => substr.isPrefixOf []
  | x :: xs => substr.isPrefixOf (x :: xs) || containsFrom substr xs

/-- Go `strings.Contains(s, substr)`. -/
def stringsContains (s substr : String) : Bool :=
  containsFrom substr.data s.data

/-! ## The line scanner -/

/-- The constant `bufio.MaxScanTokenSize`, the size limit of the scanner buffer. -/
def MaxScanTokenSize : Nat := 64 * 1024

/-- Length in bytes of a piece of UTF-8 text. -/
def byteLen : List Char → Nat
  | [] => 0
  | c :: cs => c.utf8Size + byteLen cs

/-- The lines of a text as `bufio.ScanLines` delimits them, before any treatment:
each line ends at a newline, which is not part of it, and a last line that is not
empty needs no newline. -/
def splitLines : List Char → List (List Char)
  | [] => []
  | c :: cs =>
    if c = '\n' then [] :: splitLines cs
    else
      match splitLines cs with
      | [] => [[c]]
      | l :: ls => (c :: l) :: ls

/-- The helper `dropCR` of `bufio`: drop one trailing carriage return. -/
def dropCR (l : List Char) : List Char :=
  if l.getLast? = some '\r' then l.dropLast else l

/-- The tokens that `scanner.Text()` returns over the successive successful calls of
`scanner.Scan()` on `bufio.NewScanner(bytes.NewReader(rawResults))`: the lines of
`rawResults` with the trailing carriage return dropped, up to and excluding the first
line of `MaxScanTokenSize` bytes or more, at which `Scan` fails with `ErrTooLong`
and returns false. -/
def bufioScan (rawResults : String) : List String :=
  ((splitLines rawResults.data).takeWhile
    (fun l => decide (byteLen l < MaxScanTokenSize))).map (fun l => String.mk (dropCR l))

/-- The text made of the given lines, each followed by a newline. -/
def unlines : List (List Char) → List Char
  | [] => []
  | l :: ls => l ++ '\n' :: unlines ls

/-! ## The result set -/

/-- Modelled from the spec: the struct type `ormTestsResults` is declared outside
`sqlalchemy.go`; it is the spec's ResultSet, with the fields the loop of
`runSQLAlchemy` reads and writes: the seven category counters, the slices
`allTests` and `currentFailures`, the verdict map `results` and the set `runTests`. -/
structure ormTestsResults where
  currentFailures : List String
  allTests : List String
  failUnexpectedCount : Nat
  failExpectedCount : Nat
  ignoredCount : Nat
  skipCount : Nat
  unexpectedSkipCount : Nat
  passUnexpectedCount : Nat
  passExpectedCount : Nat
  results : GoMap String
  runTests : GoMap Unit

/-- Modelled from the spec: the constructor `newORMTestsResults` is defined outside
`sqlalchemy.go`; each run starts from a fresh ResultSet, with all counters zero,
empty slices and empty maps. -/
def newORMTestsResults : ormTestsResults where
  currentFailures := []
  allTests := []
  failUnexpectedCount := 0
  failExpectedCount := 0
  ignoredCount := 0
  skipCount := 0
  unexpectedSkipCount := 0
  passUnexpectedCount := 0
  passExpectedCount := 0
  results := GoMap.empty
  runTests := GoMap.empty

/-! ## The loop of `runSQLAlchemy` -/

/-- Line 163: `pass := result == "PASSED" || strings.Contains(result, "failed as expected")`. -/
def pass (result : String) : Bool :=
  result == "PASSED" || stringsContains result "failed as expected"

/-- Line 164: `skipped := result == "SKIPPED"`. -/
def skipped (result : String) : Bool :=
  result == "SKIPPED"

/-- Lines 163-198: the body of the scan loop for a matched line, `test` and `result`
being `match[1]` and `match[2]`. The helper `maybeAddGithubLink` is defined outside
`sqlalchemy.go` and is a parameter. A Go `switch` without a default clause does
nothing when no case applies, hence the final `else`. -/
def loopBody (ignoredlist expectedFailures : blacklist)
    (maybeAddGithubLink : String → String)
    (results : ormTestsResults) (test result : String) : ormTestsResults :=
  let results := { results with allTests := results.allTests ++ [test] }
  let ignoredIssue := (GoMap.index ignoredlist test).1
  let expectedIgnored := (GoMap.index ignoredlist test).2
  let issue := (GoMap.index expectedFailures test).1
  let expectedFailure := (GoMap.index expectedFailures test).2
  let results :=
    if expectedIgnored then
      { results with
        results := results.results.assign test
          ("--- SKIP: " ++ test ++ " due to " ++ ignoredIssue ++ " (expected)")
        ignoredCount := results.ignoredCount + 1 }
    else if skipped result && expectedFailure then
      { results with
        results := results.results.assign test ("--- SKIP: " ++ test ++ " (unexpected)")
        unexpectedSkipCount := results.unexpectedSkipCount + 1 }
    else if skipped result then
      { results with
        results := results.results.assign test ("--- SKIP: " ++ test ++ " (expected)")
        skipCount := results.skipCount + 1 }
    else if pass result && !expectedFailure then
      { results with
        results := results.results.assign test ("--- PASS: " ++ test ++ " (expected)")
        passExpectedCount := results.passExpectedCount + 1 }
    else if pass result && expectedFailure then
      { results with
        results := results.results.assign test
          ("--- PASS: " ++ test ++ " - " ++ maybeAddGithubLink issue ++ " (unexpected)")
        passUnexpectedCount := results.passUnexpectedCount + 1 }
    else if !pass result && expectedFailure then
      { results with
        results := results.results.assign test
          ("--- FAIL: " ++ test ++ " - " ++ maybeAddGithubLink issue ++ " (expected)")
        failExpectedCount := results.failExpectedCount + 1
        currentFailures := results.currentFailures ++ [test] }
    else if !pass result && !expectedFailure then
      { results with
        results := results.results.assign test ("--- FAIL: " ++ test ++ " (unexpected)")
        failUnexpectedCount := results.failUnexpectedCount + 1
        currentFailures := results.currentFailures ++ [test] }
    else results
  { results with runTests := results.runTests.assign test () }

/-- Lines 158-198: one iteration of the scan loop on the line `scanner.Text()`:
`continue` when the regular expression does not match, else the loop body on
`match[1]` and `match[2]`. -/
def scanStep (ignoredlist expectedFailures : blacklist)
    (maybeAddGithubLink : String → String)
    (results : ormTestsResults) (line : String) : ormTestsResults :=
  match FindStringSubmatch sqlAlchemyResultRegex line with
  | none => results
  | some m => loopBody ignoredlist expectedFailures maybeAddGithubLink results
      (m.getD 1 "") (m.getD 2 "")

/-- Lines 154 and 157-199: the iterations of the scan loop on the tokens that the
scanner returns, started on `newORMTestsResults()`. -/
def scanLoop (ignoredlist expectedFailures : blacklist)
    (maybeAddGithubLink : String → String) (lines : List String) : ormTestsResults :=
  lines.foldl (scanStep ignoredlist expectedFailures maybeAddGithubLink) newORMTestsResults

/-- Lines 154-199 of `runSQLAlchemy`: the scanner over `rawResults` and the scan loop
over its tokens. The loop is reached only with a non-nil `expectedFailures` (line 136
aborts the run otherwise); a table without keys is a legal input and is what
`GoMap.empty` stands for. -/
def runSQLAlchemy (ignoredlist expectedFailures : blacklist)
    (maybeAddGithubLink : String → String) (rawResults : String) : ormTestsResults :=
  scanLoop ignoredlist expectedFailures maybeAddGithubLink (bufioScan rawResults)

/-- The loop of `runSQLAlchemy` on lines that are already matched, each given by its
pair `(match[1], match[2])`, from the result set `results`. -/
def aggregateFrom (ignoredlist expectedFailures : blacklist)
    (maybeAddGithubLink : String → String)
    (results : ormTestsResults) (matched : List (String × String)) : ormTestsResults :=
  matched.foldl
    (fun r m => loopBody ignoredlist expectedFailures maybeAddGithubLink r m.1 m.2) results

/-- The pairs `(match[1], match[2])` of the lines that the result regular expression
matches, in stream order. -/
def matchedLines (lines : List String) : List (String × String) :=
  lines.filterMap fun line =>
    (FindStringSubmatch sqlAlchemyResultRegex line).map fun m => (m.getD 1 "", m.getD 2 "")

/-! ## Categories -/

/-- The seven categories of the classification, in the order of the rows of the
precedence table. -/
inductive Category where
  | Ignored
  | UnexpectedSkip
  | ExpectedSkip
  | ExpectedPass
  | UnexpectedPass
  | ExpectedFailure
  | UnexpectedFailure
  deriving DecidableEq

/-- The counter field of `ormTestsResults` that belongs to a category. -/
def counter : Category → ormTestsResults → Nat
  | .Ignored, r => r.ignoredCount
  | .UnexpectedSkip, r => r.unexpectedSkipCount
  | .ExpectedSkip, r => r.skipCount
  | .ExpectedPass, r => r.passExpectedCount
  | .UnexpectedPass, r => r.passUnexpectedCount
  | .ExpectedFailure, r => r.failExpectedCount
  | .UnexpectedFailure, r => r.failUnexpectedCount

/-- The precedence table as the specification words it (section 4.3): the seven rows
in order, each a condition on the four booleans and the category it selects. -/
def precedenceTable (expectedIgnored skipped pass expectedFailure : Bool) :
    List (Bool × Category) :=
  [ (expectedIgnored, .Ignored),
    (skipped && expectedFailure, .UnexpectedSkip),
    (skipped && !expectedFailure, .ExpectedSkip),
    (pass && !expectedFailure, .ExpectedPass),
    (pass && expectedFailure, .UnexpectedPass),
    (!pass && expectedFailure, .ExpectedFailure),
    (!pass && !expectedFailure, .UnexpectedFailure) ]

/-- First matching rule wins: the category of the first row whose condition holds,
`none` when no row applies. -/
def firstMatchingRule (table : List (Bool × Category)) : Option Category :=
  (table.find? (fun row => row.1)).map (fun row => row.2)

/-- Does the token of a raw line match the result regular expression? -/
def lineMatches (l : List Char) : Bool :=
  (FindStringSubmatch sqlAlchemyResultRegex (String.mk (dropCR l))).isSome

/-- The raw stream with every line removed whose token does not match the result
regular expression. -/
def removeUnmatched (rawResults : String) : String :=
  String.mk (unlines ((splitLines rawResults.data).filter lineMatches))

/-- A table with the single entry `k ↦ v`. -/
def singleton (k v : String) : blacklist :=
  GoMap.assign GoMap.empty k v

/-! ## Basic facts -/

theorem skipped_eq_true {result : String} (h : skipped result = true) :
    result = "SKIPPED" := by
  simpa [skipped] using h

theorem pass_of_skipped {result : String} (h : skipped result = true) :
    pass result = false := by
  rw [skipped_eq_true h]; decide

theorem index_none {m : blacklist} {k : String} (h : m k = none) :
    GoMap.index m k = ("", false) := by
  simp [GoMap.index, h]

theorem index_some {m : blacklist} {k v : String} (h : m k = some v) :
    GoMap.index m k = (v, true) := by
  simp [GoMap.index, h]

theorem assign_same {V : Type} (m : GoMap V) (k : String) (v : V) :
    GoMap.assign m k v k = some v := by
  simp [GoMap.assign]

theorem assign_other {V : Type} (m : GoMap V) {k x : String} (v : V) (h : x ≠ k) :
    GoMap.assign m k v x = m x := by
  simp [GoMap.assign, h]

/-! ## The effect of one loop iteration on each field -/

theorem loopBody_allTests (ignoredlist expectedFailures : blacklist)
    (maybeAddGithubLink : String → String) (r : ormTestsResults) (test result : String) :
    (loopBody ignoredlist expectedFailures maybeAddGithubLink r test result).allTests
      = r.allTests ++ [test] := by
  unfold loopBody
  simp only []
  split_ifs <;> rfl

theorem loopBody_runTests (ignoredlist expectedFailures : blacklist)
    (maybeAddGithubLink : String → String) (r : ormTestsResults) (test result : String) :
    (loopBody ignoredlist expectedFailures maybeAddGithubLink r test result).runTests
      = r.runTests.assign test () := by
  unfold loopBody
  simp only []
  split_ifs <;> rfl

theorem loopBody_currentFailures (ignoredlist expectedFailures : blacklist)
    (maybeAddGithubLink : String → String) (r : ormTestsResults) (test result : String) :
    (loopBody ignoredlist expectedFailures maybeAddGithubLink r test result).currentFailures
      = r.currentFailures ++
        (loopBody ignoredlist expectedFailures maybeAddGithubLink newORMTestsResults
          test result).currentFailures := by
  unfold loopBody
  simp only []
  split_ifs <;> simp [newORMTestsResults]

theorem loopBody_counter (ignoredlist expectedFailures : blacklist)
    (maybeAddGithubLink : String → String) (r : ormTestsResults) (test result : String)
    (c : Category) :
    counter c (loopBody ignoredlist expectedFailures maybeAddGithubLink r test result)
      = counter c r +
        counter c (loopBody ignoredlist expectedFailures maybeAddGithubLink newORMTestsResults
          test result) := by
  unfold loopBody
  simp only []
  split_ifs <;> cases c <;> simp [newORMTestsResults, counter]

theorem loopBody_results_same (ignoredlist expectedFailures : blacklist)
    (maybeAddGithubLink : String → String) (r : ormTestsResults) (test result : String) :
    (loopBody ignoredlist expectedFailures maybeAddGithubLink r test result).results test
      = (loopBody ignoredlist expectedFailures maybeAddGithubLink newORMTestsResults
          test result).results test ∧
    ((loopBody ignoredlist expectedFailures maybeAddGithubLink newORMTestsResults
          test result).results test).isSome = true := by
  rcases hi : ignoredlist test with _ | ii <;>
  rcases he : expectedFailures test with _ | ei <;>
  cases hs : skipped result <;>
  cases hp : pass result <;>
  simp [loopBody, GoMap.index, hi, he, hs, hp, assign_same]

theorem loopBody_results_other (ignoredlist expectedFailures : blacklist)
    (maybeAddGithubLink : String → String) (r : ormTestsResults) (test result : String)
    {k : String} (h : k ≠ test) :
    (loopBody ignoredlist expectedFailures maybeAddGithubLink r test result).results k
      = r.results k := by
  rcases hi : ignoredlist test with _ | ii <;>
  rcases he : expectedFailures test with _ | ei <;>
  cases hs : skipped result <;>
  cases hp : pass result <;>
  first
    | (have hp2 := pass_of_skipped hs
       rw [hp] at hp2
       exact absurd hp2 (by decide))
    | simp [loopBody, GoMap.index, hi, he, hs, hp, assign_other _ _ h]

/-! ## Single lines -/

/-- Claim C2: a line whose test identifier is a key of the ignored table is counted in
`ignoredCount` and nowhere else, whatever its status and whether or not the identifier
is also a key of the expected-failure table; `currentFailures` is left as it was. -/
theorem C2_ignored_takes_precedence (ignoredlist expectedFailures : blacklist)
    (maybeAddGithubLink : String → String) (results : ormTestsResults)
    (test result : String) (h : (ignoredlist test).isSome = true) :
    (∀ c, counter c
        (loopBody ignoredlist expectedFailures maybeAddGithubLink results test result)
      = counter c results + if c = Category.Ignored then 1 else 0) ∧
    (loopBody ignoredlist expectedFailures maybeAddGithubLink results test result).currentFailures
      = results.currentFailures := by
  obtain ⟨issue, hi⟩ := Option.isSome_iff_exists.mp h
  refine ⟨fun c => ?_, ?_⟩
  · cases c <;> simp [loopBody, index_some hi, counter]
  · simp [loopBody, index_some hi]

/-- Witness for C2: the identifier is in both tables and the status is `FAILED`. -/
theorem C2_ignored_takes_precedence_witness :
    (singleton "test_x::Y::z" "#123" "test_x::Y::z").isSome = true ∧
    (∀ c, counter c
        (loopBody (singleton "test_x::Y::z" "#123") (singleton "test_x::Y::z" "#7") id
          newORMTestsResults "test_x::Y::z" "FAILED")
      = counter c newORMTestsResults + if c = Category.Ignored then 1 else 0) ∧
    (loopBody (singleton "test_x::Y::z" "#123") (singleton "test_x::Y::z" "#7") id
        newORMTestsResults "test_x::Y::z" "FAILED").currentFailures
      = newORMTestsResults.currentFailures :=
  ⟨by decide,
   C2_ignored_takes_precedence (singleton "test_x::Y::z" "#123")
     (singleton "test_x::Y::z" "#7") id newORMTestsResults "test_x::Y::z" "FAILED" (by decide)⟩

/-- Claim C1, as stated, fails on two kinds of lines that are not passes and are not in
the expected-failure table: a `SKIPPED` line is counted in `skipCount` with a SKIP
verdict, and a failing line whose identifier is in the ignored table is counted in
`ignoredCount`; neither touches `failUnexpectedCount` or `currentFailures`. -/
theorem C1_counterexample :
    (matchedLines (bufioScan "test.suite::Case::new SKIPPED\n") = [("test.suite::Case::new", "SKIPPED")] ∧
      pass "SKIPPED" = false ∧
      (GoMap.empty : blacklist) "test.suite::Case::new" = none ∧
      (runSQLAlchemy GoMap.empty GoMap.empty id
        "test.suite::Case::new SKIPPED\n").failUnexpectedCount = 0 ∧
      (runSQLAlchemy GoMap.empty GoMap.empty id
        "test.suite::Case::new SKIPPED\n").skipCount = 1 ∧
      (runSQLAlchemy GoMap.empty GoMap.empty id
        "test.suite::Case::new SKIPPED\n").results "test.suite::Case::new"
        = some "--- SKIP: test.suite::Case::new (expected)" ∧
      (runSQLAlchemy GoMap.empty GoMap.empty id
        "test.suite::Case::new SKIPPED\n").currentFailures = []) ∧
    (matchedLines (bufioScan "test.suite::Case::new FAILED\n") = [("test.suite::Case::new", "FAILED")] ∧
      pass "FAILED" = false ∧
      (GoMap.empty : blacklist) "test.suite::Case::new" = none ∧
      (runSQLAlchemy (singleton "test.suite::Case::new" "#1") GoMap.empty id
        "test.suite::Case::new FAILED\n").failUnexpectedCount = 0 ∧
      (runSQLAlchemy (singleton "test.suite::Case::new" "#1") GoMap.empty id
        "test.suite::Case::new FAILED\n").ignoredCount = 1 ∧
      (runSQLAlchemy (singleton "test.suite::Case::new" "#1") GoMap.empty id
        "test.suite::Case::new FAILED\n").results "test.suite::Case::new"
        = some "--- SKIP: test.suite::Case::new due to #1 (expected)" ∧
      (runSQLAlchemy (singleton "test.suite::Case::new" "#1") GoMap.empty id
        "test.suite::Case::new FAILED\n").currentFailures = []) := by
  decide

/-- Claim C1, amended: a line that is not a pass, whose status is not `SKIPPED`, and
whose identifier is in neither the ignored nor the expected-failure table is counted in
`failUnexpectedCount` and nowhere else, gets the verdict
`--- FAIL: <testID> (unexpected)`, and its identifier is appended to `currentFailures`. -/
theorem C1_unexpected_failure (ignoredlist expectedFailures : blacklist)
    (maybeAddGithubLink : String → String) (results : ormTestsResults)
    (test result : String)
    (hpass : pass result = false) (hskip : skipped result = false)
    (hign : ignoredlist test = none) (hexp : expectedFailures test = none) :
    (∀ c, counter c
        (loopBody ignoredlist expectedFailures maybeAddGithubLink results test result)
      = counter c results + if c = Category.UnexpectedFailure then 1 else 0) ∧
    (loopBody ignoredlist expectedFailures maybeAddGithubLink results test result).results test
      = some ("--- FAIL: " ++ test ++ " (unexpected)") ∧
    (loopBody ignoredlist expectedFailures maybeAddGithubLink results test result).currentFailures
      = results.currentFailures ++ [test] := by
  refine ⟨fun c => ?_, ?_, ?_⟩
  · cases c <;> simp [loopBody, index_none hign, index_none hexp, hpass, hskip, counter]
  · simp [loopBody, index_none hign, index_none hexp, hpass, hskip, assign_same]
  · simp [loopBody, index_none hign, index_none hexp, hpass, hskip]

/-- Witness for C1 (amended): the line `test.suite::Case::new FAILED` with empty tables. -/
theorem C1_unexpected_failure_witness :
    (∀ c, counter c
        (loopBody GoMap.empty GoMap.empty id newORMTestsResults "test.suite::Case::new" "FAILED")
      = counter c newORMTestsResults + if c = Category.UnexpectedFailure then 1 else 0) ∧
    (loopBody GoMap.empty GoMap.empty id newORMTestsResults
        "test.suite::Case::new" "FAILED").results "test.suite::Case::new"
      = some ("--- FAIL: " ++ "test.suite::Case::new" ++ " (unexpected)") ∧
    (loopBody GoMap.empty GoMap.empty id newORMTestsResults
        "test.suite::Case::new" "FAILED").currentFailures
      = newORMTestsResults.currentFailures ++ ["test.suite::Case::new"] :=
  C1_unexpected_failure GoMap.empty GoMap.empty id newORMTestsResults
    "test.suite::Case::new" "FAILED" (by decide) (by decide) rfl rfl

/-- Claim C3, as stated, fails on a passing line whose identifier is in the ignored
table (and not in the expected-failure table): it is counted in `ignoredCount`, not in
`passExpectedCount`, and its verdict is a SKIP line. -/
theorem C3_counterexample :
    matchedLines (bufioScan "test.suite::Case::ok PASSED\n") = [("test.suite::Case::ok", "PASSED")] ∧
    pass "PASSED" = true ∧
    (GoMap.empty : blacklist) "test.suite::Case::ok" = none ∧
    (runSQLAlchemy (singleton "test.suite::Case::ok" "#1") GoMap.empty id
      "test.suite::Case::ok PASSED\n").passExpectedCount = 0 ∧
    (runSQLAlchemy (singleton "test.suite::Case::ok" "#1") GoMap.empty id
      "test.suite::Case::ok PASSED\n").ignoredCount = 1 ∧
    (runSQLAlchemy (singleton "test.suite::Case::ok" "#1") GoMap.empty id
      "test.suite::Case::ok PASSED\n").results "test.suite::Case::ok"
      = some "--- SKIP: test.suite::Case::ok due to #1 (expected)" := by
  decide

/-- Claim C3, amended: a passing line whose identifier is in neither the ignored nor
the expected-failure table is counted in `passExpectedCount` and nowhere else, and gets
the verdict `--- PASS: <testID> (expected)`. -/
theorem C3_expected_pass (ignoredlist expectedFailures : blacklist)
    (maybeAddGithubLink : String → String) (results : ormTestsResults)
    (test result : String)
    (hpass : pass result = true)
    (hign : ignoredlist test = none) (hexp : expectedFailures test = none) :
    (∀ c, counter c
        (loopBody ignoredlist expectedFailures maybeAddGithubLink results test result)
      = counter c results + if c = Category.ExpectedPass then 1 else 0) ∧
    (loopBody ignoredlist expectedFailures maybeAddGithubLink results test result).results test
      = some ("--- PASS: " ++ test ++ " (expected)") := by
  have hskip : skipped result = false := by
    cases hs : skipped result
    · rfl
    · rw [pass_of_skipped hs] at hpass; exact absurd hpass (by decide)
  refine ⟨fun c => ?_, ?_⟩
  · cases c <;> simp [loopBody, index_none hign, index_none hexp, hpass, hskip, counter]
  · simp [loopBody, index_none hign, index_none hexp, hpass, hskip, assign_same]

/-- Witness for C3 (amended): a status that contains `failed as expected`. -/
theorem C3_expected_pass_witness :
    (∀ c, counter c
        (loopBody GoMap.empty GoMap.empty id newORMTestsResults
          "test.suite::Case::ok" "XFAIL (failed as expected)")
      = counter c newORMTestsResults + if c = Category.ExpectedPass then 1 else 0) ∧
    (loopBody GoMap.empty GoMap.empty id newORMTestsResults
        "test.suite::Case::ok" "XFAIL (failed as expected)").results "test.suite::Case::ok"
      = some ("--- PASS: " ++ "test.suite::Case::ok" ++ " (expected)") :=
  C3_expected_pass GoMap.empty GoMap.empty id newORMTestsResults
    "test.suite::Case::ok" "XFAIL (failed as expected)" (by decide) rfl rfl

/-- Claim C4: the switch of `runSQLAlchemy` refines the seven-row precedence table.
For every status and every pair of tables the first-matching-rule reading of the table
selects a category (no line falls through all rows), and the loop body increments the
counter of exactly that category by one and leaves the other six counters unchanged. -/
theorem C4_switch_refines_precedence_table (ignoredlist expectedFailures : blacklist)
    (maybeAddGithubLink : String → String) (results : ormTestsResults)
    (test result : String) :
    ∃ cat,
      firstMatchingRule
          (precedenceTable (GoMap.index ignoredlist test).2 (skipped result) (pass result)
            (GoMap.index expectedFailures test).2) = some cat ∧
      ∀ c, counter c
          (loopBody ignoredlist expectedFailures maybeAddGithubLink results test result)
        = counter c results + if c = cat then 1 else 0 := by
  rcases hi : ignoredlist test with _ | ii <;>
  rcases he : expectedFailures test with _ | ei <;>
  cases hs : skipped result <;>
  cases hp : pass result <;>
  first
    | (have hp2 := pass_of_skipped hs
       rw [hp] at hp2
       exact absurd hp2 (by decide))
    | (simp only [GoMap.index, hi, he]
       refine ⟨_, rfl, fun c => ?_⟩
       cases c <;>
       simp [loopBody, GoMap.index, hi, he, hs, hp, counter])

/-- Claim C5, as stated, fails in both directions: a failing line whose identifier is
in the expected-failure table (category 6) has its identifier appended to
`currentFailures`, and a passing line whose identifier is in the expected-failure table
(category 5) leaves `currentFailures` empty. -/
theorem C5_counterexample :
    (matchedLines (bufioScan "test.suite::Case::known FAILED\n")
        = [("test.suite::Case::known", "FAILED")] ∧
      (runSQLAlchemy GoMap.empty (singleton "test.suite::Case::known" "#45") id
        "test.suite::Case::known FAILED\n").failExpectedCount = 1 ∧
      (runSQLAlchemy GoMap.empty (singleton "test.suite::Case::known" "#45") id
        "test.suite::Case::known FAILED\n").currentFailures = ["test.suite::Case::known"]) ∧
    (matchedLines (bufioScan "test.suite::Case::known PASSED\n")
        = [("test.suite::Case::known", "PASSED")] ∧
      (runSQLAlchemy GoMap.empty (singleton "test.suite::Case::known" "#45") id
        "test.suite::Case::known PASSED\n").passUnexpectedCount = 1 ∧
      (runSQLAlchemy GoMap.empty (singleton "test.suite::Case::known" "#45") id
        "test.suite::Case::known PASSED\n").currentFailures = []) := by
  decide

/-- Claim C5, amended: the loop body appends the test identifier to `currentFailures`
exactly when the line is counted in category 6 (`failExpectedCount`) or category 7
(`failUnexpectedCount`), which happens exactly when the identifier is not in the
ignored table and the status is neither skipped nor a pass; in every other case
(categories 1 to 5) the list is unchanged. -/
theorem C5_currentFailures_iff_fail (ignoredlist expectedFailures : blacklist)
    (maybeAddGithubLink : String → String) (results : ormTestsResults)
    (test result : String) :
    ((counter Category.ExpectedFailure
          (loopBody ignoredlist expectedFailures maybeAddGithubLink results test result)
        = counter Category.ExpectedFailure results + 1 ∨
      counter Category.UnexpectedFailure
          (loopBody ignoredlist expectedFailures maybeAddGithubLink results test result)
        = counter Category.UnexpectedFailure results + 1)
      ↔ (ignoredlist test = none ∧ skipped result = false ∧ pass result = false)) ∧
    (loopBody ignoredlist expectedFailures maybeAddGithubLink results test result).currentFailures
      = if ignoredlist test = none ∧ skipped result = false ∧ pass result = false
        then results.currentFailures ++ [test] else results.currentFailures := by
  rcases hi : ignoredlist test with _ | ii <;>
  rcases he : expectedFailures test with _ | ei <;>
  cases hs : skipped result <;>
  cases hp : pass result <;>
  simp [loopBody, GoMap.index, hi, he, hs, hp, counter]

/-- Claim C9, as stated, fails at the claim's own example: with ignored table
`{"test_x::Y::z": "#123"}` the line `test_x::Y::z FAILED` gets the verdict
`--- SKIP: test_x::Y::z due to #123 (expected)`, which does not contain the text
`(expected, ignored)`. -/
theorem C9_counterexample :
    matchedLines (bufioScan "test_x::Y::z FAILED\n") = [("test_x::Y::z", "FAILED")] ∧
    (runSQLAlchemy (singleton "test_x::Y::z" "#123") GoMap.empty id
      "test_x::Y::z FAILED\n").results "test_x::Y::z"
      = some "--- SKIP: test_x::Y::z due to #123 (expected)" ∧
    stringsContains "--- SKIP: test_x::Y::z due to #123 (expected)" "(expected, ignored)"
      = false := by
  decide

/-- Claim C9, amended: for a line whose test identifier is a key of the ignored table,
with issue reference `issue`, the recorded verdict is the SKIP line
`--- SKIP: <testID> due to <issue> (expected)`. -/
theorem C9_ignored_verdict (ignoredlist expectedFailures : blacklist)
    (maybeAddGithubLink : String → String) (results : ormTestsResults)
    (test result issue : String) (h : ignoredlist test = some issue) :
    (loopBody ignoredlist expectedFailures maybeAddGithubLink results test result).results test
      = some ("--- SKIP: " ++ test ++ " due to " ++ issue ++ " (expected)") := by
  simp [loopBody, index_some h, assign_same]

/-- Witness for C9 (amended): the example of the specification. -/
theorem C9_ignored_verdict_witness :
    singleton "test_x::Y::z" "#123" "test_x::Y::z" = some "#123" ∧
    (loopBody (singleton "test_x::Y::z" "#123") GoMap.empty id newORMTestsResults
        "test_x::Y::z" "FAILED").results "test_x::Y::z"
      = some ("--- SKIP: " ++ "test_x::Y::z" ++ " due to " ++ "#123" ++ " (expected)") :=
  ⟨by decide,
   C9_ignored_verdict (singleton "test_x::Y::z" "#123") GoMap.empty id newORMTestsResults
     "test_x::Y::z" "FAILED" "#123" (by decide)⟩

/-- Claim C10: the end-to-end scenario. With expected-failure table
`{"test.dialect::Suite::unsupported_feature": "#999"}` and an empty ignored table, the
three lines all match, with exactly the expected identifiers and statuses, and the loop
counts one ExpectedFailure, one ExpectedPass and one ExpectedSkip and nothing else;
the three verdicts are the FAIL (expected), PASS (expected) and SKIP (expected) lines. -/
theorem C10_end_to_end :
    matchedLines
        (bufioScan
          ("test.dialect::Suite::unsupported_feature FAILED\n" ++
           "test.dialect::Suite::basic_select PASSED\n" ++
           "test.dialect::Suite::flaky_case SKIPPED\n"))
      = [ ("test.dialect::Suite::unsupported_feature", "FAILED"),
          ("test.dialect::Suite::basic_select", "PASSED"),
          ("test.dialect::Suite::flaky_case", "SKIPPED") ] ∧
    (∀ c, counter c
        (runSQLAlchemy GoMap.empty
          (singleton "test.dialect::Suite::unsupported_feature" "#999") id
          ("test.dialect::Suite::unsupported_feature FAILED\n" ++
           "test.dialect::Suite::basic_select PASSED\n" ++
           "test.dialect::Suite::flaky_case SKIPPED\n"))
      = if c = Category.ExpectedFailure ∨ c = Category.ExpectedPass ∨ c = Category.ExpectedSkip
        then 1 else 0) ∧
    (runSQLAlchemy GoMap.empty
        (singleton "test.dialect::Suite::unsupported_feature" "#999") id
        ("test.dialect::Suite::unsupported_feature FAILED\n" ++
         "test.dialect::Suite::basic_select PASSED\n" ++
         "test.dialect::Suite::flaky_case SKIPPED\n")).results
        "test.dialect::Suite::unsupported_feature"
      = some "--- FAIL: test.dialect::Suite::unsupported_feature - #999 (expected)" ∧
    (runSQLAlchemy GoMap.empty
        (singleton "test.dialect::Suite::unsupported_feature" "#999") id
        ("test.dialect::Suite::unsupported_feature FAILED\n" ++
         "test.dialect::Suite::basic_select PASSED\n" ++
         "test.dialect::Suite::flaky_case SKIPPED\n")).results
        "test.dialect::Suite::basic_select"
      = some "--- PASS: test.dialect::Suite::basic_select (expected)" ∧
    (runSQLAlchemy GoMap.empty
        (singleton "test.dialect::Suite::unsupported_feature" "#999") id
        ("test.dialect::Suite::unsupported_feature FAILED\n" ++
         "test.dialect::Suite::basic_select PASSED\n" ++
         "test.dialect::Suite::flaky_case SKIPPED\n")).results
        "test.dialect::Suite::flaky_case"
      = some "--- SKIP: test.dialect::Suite::flaky_case (expected)" := by
  refine ⟨by decide, fun c => ?_, by decide, by decide, by decide⟩
  cases c <;> decide

/-! ## Lines that do not match -/

theorem scanStep_of_none (ignoredlist expectedFailures : blacklist)
    (maybeAddGithubLink : String → String) (r : ormTestsResults) {line : String}
    (h : FindStringSubmatch sqlAlchemyResultRegex line = none) :
    scanStep ignoredlist expectedFailures maybeAddGithubLink r line = r := by
  simp [scanStep, h]

theorem foldl_scanStep_filter (ignoredlist expectedFailures : blacklist)
    (maybeAddGithubLink : String → String) (lines : List String) :
    ∀ r : ormTestsResults,
      lines.foldl (scanStep ignoredlist expectedFailures maybeAddGithubLink) r
        = (lines.filter
            (fun l => (FindStringSubmatch sqlAlchemyResultRegex l).isSome)).foldl
            (scanStep ignoredlist expectedFailures maybeAddGithubLink) r := by
  induction lines with
  | nil => intro r; rfl
  | cons l ls ih =>
    intro r
    cases h : FindStringSubmatch sqlAlchemyResultRegex l with
    | none =>
      rw [List.foldl_cons, scanStep_of_none _ _ _ _ h, List.filter_cons_of_neg (by simp [h])]
      exact ih r
    | some m =>
      rw [List.filter_cons_of_pos (by simp [h]), List.foldl_cons, List.foldl_cons]
      exact ih _

theorem foldl_scanStep_of_none (ignoredlist expectedFailures : blacklist)
    (maybeAddGithubLink : String → String) (lines : List String)
    (h : ∀ l ∈ lines, FindStringSubmatch sqlAlchemyResultRegex l = none) :
    ∀ r : ormTestsResults,
      lines.foldl (scanStep ignoredlist expectedFailures maybeAddGithubLink) r = r := by
  induction lines with
  | nil => intro r; rfl
  | cons l ls ih =>
    intro r
    rw [List.foldl_cons, scanStep_of_none _ _ _ _ (h l (List.mem_cons_self _ _))]
    exact ih (fun x hx => h x (List.mem_cons_of_mem _ hx)) r

/-- The expression is anchored by `^`: no match starts after position 0. -/
theorem reRun_anchored (pos : Nat) (xs : List Char) :
    reRun (withWholeMatch sqlAlchemyResultRegex) (pos + 1) xs = none := by
  simp [withWholeMatch, sqlAlchemyResultRegex, reRun]

theorem reFind_anchored (xs : List Char) :
    ∀ pos, reFind (withWholeMatch sqlAlchemyResultRegex) (pos + 1) xs = none := by
  induction xs with
  | nil => intro pos; simp [reFind, reRun_anchored]
  | cons x xs ih => intro pos; simp [reFind, reRun_anchored, ih]

/-- A match at position 0 needs the four characters `test` in front. -/
theorem reRun_needs_test (xs : List Char) (h : ¬ (['t', 'e', 's', 't'] <+: xs)) :
    reRun (withWholeMatch sqlAlchemyResultRegex) 0 xs = none := by
  rcases xs with _ | ⟨a, _ | ⟨b, _ | ⟨c, _ | ⟨d, rest⟩⟩⟩⟩
  · simp [withWholeMatch, sqlAlchemyResultRegex, reRun]
  · simp [withWholeMatch, sqlAlchemyResultRegex, reRun]
  · simp [withWholeMatch, sqlAlchemyResultRegex, reRun]
  · simp [withWholeMatch, sqlAlchemyResultRegex, reRun]
  · have hne : ¬ (a = 't' ∧ b = 'e' ∧ c = 's' ∧ d = 't') := by
      rintro ⟨rfl, rfl, rfl, rfl⟩
      exact h ⟨rest, rfl⟩
    simp only [withWholeMatch, sqlAlchemyResultRegex, reRun, List.cons_append, List.nil_append]
    by_cases ha : a = 't'
    · by_cases hb : b = 'e'
      · by_cases hc : c = 's'
        · by_cases hd : d = 't'
          · exact absurd ⟨ha, hb, hc, hd⟩ hne
          · simp [ha, hb, hc, hd]
        · simp [ha, hb, hc]
      · simp [ha, hb]
    · simp [ha]

theorem FindStringSubmatch_needs_test (line : String)
    (h : ¬ ("test".data <+: line.data)) :
    FindStringSubmatch sqlAlchemyResultRegex line = none := by
  have h0 : reFind (withWholeMatch sqlAlchemyResultRegex) 0 line.data = none := by
    rcases hx : line.data with _ | ⟨x, xs⟩
    · rw [hx] at h
      simp [reFind, reRun_needs_test [] h]
    · rw [hx] at h
      simp [reFind, reRun_needs_test (x :: xs) h, reFind_anchored]
  simp [FindStringSubmatch, h0]

theorem scanLoop_eq_aggregateFrom (ignoredlist expectedFailures : blacklist)
    (maybeAddGithubLink : String → String) (lines : List String) :
    scanLoop ignoredlist expectedFailures maybeAddGithubLink lines
      = aggregateFrom ignoredlist expectedFailures maybeAddGithubLink newORMTestsResults
          (matchedLines lines) := by
  unfold scanLoop aggregateFrom
  generalize newORMTestsResults = r
  induction lines generalizing r with
  | nil => rfl
  | cons l ls ih =>
    cases h : FindStringSubmatch sqlAlchemyResultRegex l with
    | none =>
      have hm : matchedLines (l :: ls) = matchedLines ls := by
        simp [matchedLines, List.filterMap_cons, h]
      rw [List.foldl_cons, scanStep_of_none _ _ _ _ h, hm]
      exact ih r
    | some m =>
      have hm : matchedLines (l :: ls) = (m.getD 1 "", m.getD 2 "") :: matchedLines ls := by
        simp [matchedLines, List.filterMap_cons, h]
      rw [hm, List.foldl_cons, List.foldl_cons]
      have hs : scanStep ignoredlist expectedFailures maybeAddGithubLink r l
          = loopBody ignoredlist expectedFailures maybeAddGithubLink r
              (m.getD 1 "") (m.getD 2 "") := by
        simp [scanStep, h]
      rw [hs]
      exact ih _

/-- The scan loop of `runSQLAlchemy` is the loop body folded over the matched lines
of the scanned stream. -/
theorem runSQLAlchemy_eq_aggregateFrom (ignoredlist expectedFailures : blacklist)
    (maybeAddGithubLink : String → String) (rawResults : String) :
    runSQLAlchemy ignoredlist expectedFailures maybeAddGithubLink rawResults
      = aggregateFrom ignoredlist expectedFailures maybeAddGithubLink newORMTestsResults
          (matchedLines (bufioScan rawResults)) :=
  scanLoop_eq_aggregateFrom _ _ _ _

/-! ## The scanner -/

theorem splitLines_append_newline (l rest : List Char) (h : '\n' ∉ l) :
    splitLines (l ++ '\n' :: rest) = l :: splitLines rest := by
  induction l with
  | nil => simp [splitLines]
  | cons c l ih =>
    have hc : c ≠ '\n' := fun e => h (by simp [e])
    have hl : '\n' ∉ l := fun e => h (List.mem_cons_of_mem _ e)
    simp [splitLines, hc, ih hl]

theorem newline_not_mem_splitLines (xs : List Char) :
    ∀ l ∈ splitLines xs, '\n' ∉ l := by
  induction xs with
  | nil => simp [splitLines]
  | cons c cs ih =>
    intro l hl
    by_cases hc : c = '\n'
    · simp only [splitLines, hc, if_true, List.mem_cons] at hl
      rcases hl with rfl | hl
      · simp
      · exact ih l hl
    · simp only [splitLines, hc, if_false] at hl
      rcases hs : splitLines cs with _ | ⟨l0, ls⟩
      · rw [hs] at hl
        simp only [List.mem_singleton] at hl
        subst hl
        simpa using fun e => hc e.symm
      · rw [hs] at hl ih
        simp only [List.mem_cons] at hl
        rcases hl with rfl | hl
        · intro hm
          rcases List.mem_cons.mp hm with e | e
          · exact hc e.symm
          · exact ih l0 (List.mem_cons_self _ _) e
        · exact ih l (List.mem_cons_of_mem _ hl)

theorem splitLines_unlines (ls : List (List Char)) (h : ∀ l ∈ ls, '\n' ∉ l) :
    splitLines (unlines ls) = ls := by
  induction ls with
  | nil => rfl
  | cons l ls ih =>
    rw [unlines, splitLines_append_newline _ _ (h l (List.mem_cons_self _ _)),
      ih (fun x hx => h x (List.mem_cons_of_mem _ hx))]

theorem dropCR_initial (l : List Char) : dropCR l <+: l := by
  unfold dropCR
  split_ifs
  · exact List.dropLast_prefix l
  · exact List.prefix_refl l

theorem byteLen_replicate (n : Nat) : byteLen (List.replicate n 'x') = n := by
  induction n with
  | zero => rfl
  | succ n ih =>
    have h1 : Char.utf8Size 'x' = 1 := by decide
    rw [List.replicate_succ, byteLen, ih, h1, Nat.add_comm]

/-- The scanner returns the token of every line when every line fits its buffer. -/
theorem bufioScan_of_fits (rawResults : String)
    (h : ∀ l ∈ splitLines rawResults.data, byteLen l < MaxScanTokenSize) :
    bufioScan rawResults
      = (splitLines rawResults.data).map (fun l => String.mk (dropCR l)) := by
  unfold bufioScan
  rw [List.takeWhile_eq_self_iff.mpr (fun l hl => by simpa using h l hl)]

/-- The scanner stops at a first line that does not fit its buffer. -/
theorem bufioScan_overlong (line rest : List Char) (hn : '\n' ∉ line)
    (hlen : MaxScanTokenSize ≤ byteLen line) :
    bufioScan (String.mk (line ++ '\n' :: rest)) = [] := by
  unfold bufioScan
  rw [splitLines_append_newline _ _ hn,
    List.takeWhile_cons_of_neg (by simpa using hlen)]
  rfl

/-- No token of the scanner begins with `test` when no line of the stream does. -/
theorem bufioScan_needs_test (rawResults : String)
    (h : ∀ l ∈ splitLines rawResults.data, ¬ ("test".data <+: l)) :
    ∀ line ∈ bufioScan rawResults, FindStringSubmatch sqlAlchemyResultRegex line = none := by
  intro line hline
  obtain ⟨l, hl, rfl⟩ := List.mem_map.mp hline
  have hl2 : l ∈ splitLines rawResults.data := ( List.takeWhile_prefix _).subset hl
  exact FindStringSubmatch_needs_test _ (fun hp => h l hl2 (hp.trans (dropCR_initial l)))

theorem lineMatches_replicate (n : Nat) : lineMatches (List.replicate n 'x') = false := by
  have hp : ¬ ("test".data <+: (String.mk (dropCR (List.replicate n 'x'))).data) := by
    intro hp
    have hmem : 't' ∈ List.replicate n 'x' :=
      (hp.trans (dropCR_initial _)).subset (by decide)
    exact absurd (List.eq_of_mem_replicate hmem) (by decide)
  simp [lineMatches, FindStringSubmatch_needs_test _ hp]

/-- Claim C6, as stated, fails on a stream with a line too long for the scanner: the
stream made of a line of 65536 characters `x` and the result line
`test.suite::Case::ok PASSED`. The long line does not match, and with it removed the
stream is the single result line, on which the loop counts one expected pass; on the
stream itself the scanner returns no token at all and the ResultSet stays empty. -/
theorem C6_counterexample :
    removeUnmatched
        (String.mk (List.replicate 65536 'x' ++ '\n' :: "test.suite::Case::ok PASSED\n".data))
      = "test.suite::Case::ok PASSED\n" ∧
    bufioScan
        (String.mk (List.replicate 65536 'x' ++ '\n' :: "test.suite::Case::ok PASSED\n".data))
      = [] ∧
    (runSQLAlchemy GoMap.empty GoMap.empty id
        (String.mk (List.replicate 65536 'x' ++ '\n' :: "test.suite::Case::ok PASSED\n".data))
      ).passExpectedCount = 0 ∧
    (runSQLAlchemy GoMap.empty GoMap.empty id
        "test.suite::Case::ok PASSED\n").passExpectedCount = 1 := by
  have hn : '\n' ∉ List.replicate 65536 'x' :=
    fun hm => absurd (List.eq_of_mem_replicate hm) (by decide)
  have hlen : MaxScanTokenSize ≤ byteLen (List.replicate 65536 'x') := by
    rw [byteLen_replicate]; decide
  have hscan := bufioScan_overlong (List.replicate 65536 'x')
    "test.suite::Case::ok PASSED\n".data hn hlen
  refine ⟨?_, hscan, ?_, by decide⟩
  · have hrest : splitLines "test.suite::Case::ok PASSED\n".data
        = ["test.suite::Case::ok PASSED".data] := by decide
    have hm : lineMatches "test.suite::Case::ok PASSED".data = true := by decide
    have hx : ¬ (lineMatches (List.replicate 65536 'x') = true) := by
      rw [lineMatches_replicate 65536]
      exact Bool.false_ne_true
    have hfilter : List.filter lineMatches
        [List.replicate 65536 'x', "test.suite::Case::ok PASSED".data]
        = ["test.suite::Case::ok PASSED".data] := by
      rw [List.filter_cons_of_neg hx, List.filter_cons_of_pos hm]
      rfl
    unfold removeUnmatched
    rw [splitLines_append_newline _ _ hn, hrest, hfilter]
    decide
  · unfold runSQLAlchemy
    rw [hscan]
    rfl

/-- Claim C6, amended: on every raw stream whose lines are all shorter than the 64 KiB
limit of the scanner, the lines that the result regular expression does not match are
skipped without any effect: the scan loop builds the same ResultSet as on the stream
with those lines removed. On every raw stream, if no token of the scanner matches, in
particular if no line begins with `test`, the loop yields the fresh ResultSet, with all
seven counters zero. -/
theorem C6_unmatched_lines_are_skipped (ignoredlist expectedFailures : blacklist)
    (maybeAddGithubLink : String → String) (rawResults : String) :
    ((∀ l ∈ splitLines rawResults.data, byteLen l < MaxScanTokenSize) →
      runSQLAlchemy ignoredlist expectedFailures maybeAddGithubLink rawResults
        = runSQLAlchemy ignoredlist expectedFailures maybeAddGithubLink
            (removeUnmatched rawResults)) ∧
    ((∀ line ∈ bufioScan rawResults,
        FindStringSubmatch sqlAlchemyResultRegex line = none) →
      runSQLAlchemy ignoredlist expectedFailures maybeAddGithubLink rawResults
        = newORMTestsResults) ∧
    ((∀ l ∈ splitLines rawResults.data, ¬ ("test".data <+: l)) →
      runSQLAlchemy ignoredlist expectedFailures maybeAddGithubLink rawResults
        = newORMTestsResults ∧
      ∀ c, counter c
        (runSQLAlchemy ignoredlist expectedFailures maybeAddGithubLink rawResults) = 0) := by
  refine ⟨fun h => ?_, fun h => ?_, fun h => ?_⟩
  · have hkeep : ∀ l ∈ (splitLines rawResults.data).filter lineMatches,
        l ∈ splitLines rawResults.data := fun l hl => (List.mem_filter.mp hl).1
    have hsplit : splitLines (removeUnmatched rawResults).data
        = (splitLines rawResults.data).filter lineMatches :=
      splitLines_unlines _
        (fun l hl => newline_not_mem_splitLines rawResults.data l (hkeep l hl))
    have hfits : ∀ l ∈ splitLines (removeUnmatched rawResults).data,
        byteLen l < MaxScanTokenSize := by
      rw [hsplit]
      exact fun l hl => h l (hkeep l hl)
    unfold runSQLAlchemy scanLoop
    rw [bufioScan_of_fits _ h, bufioScan_of_fits _ hfits, hsplit, foldl_scanStep_filter,
      List.filter_map]
    rfl
  · exact foldl_scanStep_of_none _ _ _ _ h _
  · have hn : runSQLAlchemy ignoredlist expectedFailures maybeAddGithubLink rawResults
        = newORMTestsResults :=
      foldl_scanStep_of_none _ _ _ _ (bufioScan_needs_test rawResults h) _
    refine ⟨hn, fun c => ?_⟩
    rw [hn]
    cases c <;> rfl

/-- Witness for C6 (amended): log chatter around one result line; every line fits the
scanner, and the stream gives the same ResultSet as the result line alone. -/
theorem C6_unmatched_lines_are_skipped_witness :
    (∀ l ∈ splitLines
        "===== test session starts =====\ncollected 1 item\n\ntest.suite::Case::ok PASSED\n".data,
      byteLen l < MaxScanTokenSize) ∧
    removeUnmatched
        "===== test session starts =====\ncollected 1 item\n\ntest.suite::Case::ok PASSED\n"
      = "test.suite::Case::ok PASSED\n" ∧
    runSQLAlchemy GoMap.empty GoMap.empty id
        "===== test session starts =====\ncollected 1 item\n\ntest.suite::Case::ok PASSED\n"
      = runSQLAlchemy GoMap.empty GoMap.empty id
        (removeUnmatched
          "===== test session starts =====\ncollected 1 item\n\ntest.suite::Case::ok PASSED\n") :=
  ⟨by decide, by decide,
   (C6_unmatched_lines_are_skipped GoMap.empty GoMap.empty id
      "===== test session starts =====\ncollected 1 item\n\ntest.suite::Case::ok PASSED\n").1
      (by decide)⟩

/-! ## Sequences of matched lines -/

theorem aggregateFrom_cons (ignoredlist expectedFailures : blacklist)
    (maybeAddGithubLink : String → String) (r : ormTestsResults)
    (m : String × String) (l : List (String × String)) :
    aggregateFrom ignoredlist expectedFailures maybeAddGithubLink r (m :: l)
      = aggregateFrom ignoredlist expectedFailures maybeAddGithubLink
          (loopBody ignoredlist expectedFailures maybeAddGithubLink r m.1 m.2) l := rfl

theorem aggregateFrom_append (ignoredlist expectedFailures : blacklist)
    (maybeAddGithubLink : String → String) (r : ormTestsResults)
    (l₁ l₂ : List (String × String)) :
    aggregateFrom ignoredlist expectedFailures maybeAddGithubLink r (l₁ ++ l₂)
      = aggregateFrom ignoredlist expectedFailures maybeAddGithubLink
          (aggregateFrom ignoredlist expectedFailures maybeAddGithubLink r l₁) l₂ := by
  simp [aggregateFrom, List.foldl_append]

/-- Lines with other identifiers leave the verdict of `k` alone. -/
theorem aggregateFrom_results_of_not_mem (ignoredlist expectedFailures : blacklist)
    (maybeAddGithubLink : String → String) (k : String) (l : List (String × String))
    (h : ∀ x ∈ l, x.1 ≠ k) :
    ∀ r : ormTestsResults,
      (aggregateFrom ignoredlist expectedFailures maybeAddGithubLink r l).results k
        = r.results k := by
  induction l with
  | nil => intro r; rfl
  | cons m l ih =>
    intro r
    rw [aggregateFrom_cons, ih (fun x hx => h x (List.mem_cons_of_mem _ hx))]
    exact loopBody_results_other _ _ _ _ _ _ (fun hk => h m (List.mem_cons_self _ _) hk.symm)

/-- The verdict stored for the identifier of a line that no later line repeats. -/
theorem aggregateFrom_results_last (ignoredlist expectedFailures : blacklist)
    (maybeAddGithubLink : String → String) (r : ormTestsResults)
    (pre post : List (String × String)) (m : String × String)
    (h : ∀ x ∈ post, x.1 ≠ m.1) :
    (aggregateFrom ignoredlist expectedFailures maybeAddGithubLink r
        (pre ++ m :: post)).results m.1
      = (loopBody ignoredlist expectedFailures maybeAddGithubLink newORMTestsResults
          m.1 m.2).results m.1 := by
  rw [aggregateFrom_append, aggregateFrom_cons,
    aggregateFrom_results_of_not_mem _ _ _ _ _ h]
  exact (loopBody_results_same _ _ _ _ _ _).1

theorem aggregateFrom_results_isSome (ignoredlist expectedFailures : blacklist)
    (maybeAddGithubLink : String → String) (k : String) (l : List (String × String)) :
    ∀ r : ormTestsResults,
      ((aggregateFrom ignoredlist expectedFailures maybeAddGithubLink r l).results k).isSome
          = true
        ↔ (k ∈ l.map Prod.fst ∨ (r.results k).isSome = true) := by
  induction l with
  | nil => intro r; simp [aggregateFrom]
  | cons m l ih =>
    intro r
    rw [aggregateFrom_cons, ih]
    by_cases hk : k = m.1
    · subst hk
      have h1 := (loopBody_results_same ignoredlist expectedFailures maybeAddGithubLink
        r m.1 m.2)
      rw [h1.1]
      simp [h1.2]
    · rw [loopBody_results_other _ _ _ _ _ _ hk]
      simp [hk]

theorem aggregateFrom_runTests (ignoredlist expectedFailures : blacklist)
    (maybeAddGithubLink : String → String) (k : String) (l : List (String × String)) :
    ∀ r : ormTestsResults,
      (aggregateFrom ignoredlist expectedFailures maybeAddGithubLink r l).runTests k
        = if k ∈ l.map Prod.fst then some () else r.runTests k := by
  induction l with
  | nil => intro r; simp [aggregateFrom]
  | cons m l ih =>
    intro r
    rw [aggregateFrom_cons, ih, loopBody_runTests]
    by_cases hk : k = m.1
    · simp [hk, GoMap.assign]
    · by_cases hl : k ∈ l.map Prod.fst
      · simp [hl]
      · have hl2 : ¬ ∃ b, (k, b) ∈ l := by
          simpa using hl
        simp [hk, hl2, GoMap.assign]

/-- An identifier that occurs in a sequence has a last occurrence. -/
theorem exists_last_occurrence (k : String) (l : List (String × String))
    (h : k ∈ l.map Prod.fst) :
    ∃ pre m post, l = pre ++ m :: post ∧ m.1 = k ∧ ∀ x ∈ post, x.1 ≠ k := by
  induction l with
  | nil => simp at h
  | cons a l ih =>
    by_cases hl : k ∈ l.map Prod.fst
    · obtain ⟨pre, m, post, hl, hm, hpost⟩ := ih hl
      exact ⟨a :: pre, m, post, by rw [hl]; rfl, hm, hpost⟩
    · have ha : a.1 = k := by
        rcases List.mem_map.mp h with ⟨x, hx, hxk⟩
        rcases List.mem_cons.mp hx with rfl | hx
        · exact hxk
        · exact absurd (List.mem_map.mpr ⟨x, hx, hxk⟩) hl
      refine ⟨[], a, l, rfl, ha, fun x hx hxk => hl (List.mem_map.mpr ⟨x, hx, hxk⟩)⟩

/-- Claim C7: last classification wins. After the loop over any sequence of matched
lines, the verdict map has an entry for an identifier exactly when `runTests` has one,
which is exactly when the identifier occurs in the sequence; and for a line that no
later line repeats the identifier of, the stored verdict is the one rendered for that
line alone, whatever the earlier lines were. -/
theorem C7_last_classification_wins (ignoredlist expectedFailures : blacklist)
    (maybeAddGithubLink : String → String) (matched : List (String × String)) :
    (∀ k,
      (((aggregateFrom ignoredlist expectedFailures maybeAddGithubLink newORMTestsResults
          matched).results k).isSome = true
        ↔ ((aggregateFrom ignoredlist expectedFailures maybeAddGithubLink newORMTestsResults
          matched).runTests k).isSome = true) ∧
      (((aggregateFrom ignoredlist expectedFailures maybeAddGithubLink newORMTestsResults
          matched).runTests k).isSome = true
        ↔ k ∈ matched.map Prod.fst)) ∧
    (∀ pre m post, matched = pre ++ m :: post → (∀ x ∈ post, x.1 ≠ m.1) →
      (aggregateFrom ignoredlist expectedFailures maybeAddGithubLink newORMTestsResults
          matched).results m.1
        = (loopBody ignoredlist expectedFailures maybeAddGithubLink newORMTestsResults
            m.1 m.2).results m.1 ∧
      ((loopBody ignoredlist expectedFailures maybeAddGithubLink newORMTestsResults
            m.1 m.2).results m.1).isSome = true) := by
  refine ⟨fun k => ?_, fun pre m post hm hpost => ?_⟩
  · have h1 := aggregateFrom_results_isSome ignoredlist expectedFailures maybeAddGithubLink
      k matched newORMTestsResults
    have h2 := aggregateFrom_runTests ignoredlist expectedFailures maybeAddGithubLink
      k matched newORMTestsResults
    have h3 : (newORMTestsResults.results k).isSome = false := rfl
    have h4 : newORMTestsResults.runTests k = none := rfl
    rw [h3] at h1
    rw [h4] at h2
    by_cases hk : k ∈ matched.map Prod.fst
    · rw [if_pos hk] at h2
      simp only [h2, h1, hk]
      simp
    · rw [if_neg hk] at h2
      simp only [h2, h1, hk]
      simp
  · subst hm
    exact ⟨aggregateFrom_results_last _ _ _ _ pre post m hpost,
      (loopBody_results_same _ _ _ newORMTestsResults m.1 m.2).2⟩

/-- Witness for C7: the same identifier first passes, then fails; the FAIL verdict of
the second line is the one that is stored. -/
theorem C7_last_classification_wins_witness :
    (aggregateFrom GoMap.empty GoMap.empty id newORMTestsResults
        [("test.suite::Case::dup", "PASSED"), ("test.suite::Case::dup", "FAILED")]).results
        "test.suite::Case::dup"
      = some "--- FAIL: test.suite::Case::dup (unexpected)" :=
  ((C7_last_classification_wins GoMap.empty GoMap.empty id
      [("test.suite::Case::dup", "PASSED"), ("test.suite::Case::dup", "FAILED")]).2
      [("test.suite::Case::dup", "PASSED")] ("test.suite::Case::dup", "FAILED") []
      rfl (by simp)).1.trans (by decide)

/-! ## Reordering the matched lines -/

theorem aggregateFrom_counter (ignoredlist expectedFailures : blacklist)
    (maybeAddGithubLink : String → String) (c : Category) (l : List (String × String)) :
    ∀ r : ormTestsResults,
      counter c (aggregateFrom ignoredlist expectedFailures maybeAddGithubLink r l)
        = counter c r +
          counter c (aggregateFrom ignoredlist expectedFailures maybeAddGithubLink
            newORMTestsResults l) := by
  induction l with
  | nil => intro r; cases c <;> rfl
  | cons m l ih =>
    intro r
    rw [aggregateFrom_cons, ih, loopBody_counter, aggregateFrom_cons,
      ih (loopBody ignoredlist expectedFailures maybeAddGithubLink newORMTestsResults m.1 m.2)]
    omega

theorem aggregateFrom_currentFailures (ignoredlist expectedFailures : blacklist)
    (maybeAddGithubLink : String → String) (l : List (String × String)) :
    ∀ r : ormTestsResults,
      (aggregateFrom ignoredlist expectedFailures maybeAddGithubLink r l).currentFailures
        = r.currentFailures ++
          (aggregateFrom ignoredlist expectedFailures maybeAddGithubLink
            newORMTestsResults l).currentFailures := by
  induction l with
  | nil => intro r; simp [aggregateFrom, newORMTestsResults]
  | cons m l ih =>
    intro r
    rw [aggregateFrom_cons, ih, loopBody_currentFailures, aggregateFrom_cons,
      ih (loopBody ignoredlist expectedFailures maybeAddGithubLink newORMTestsResults m.1 m.2),
      List.append_assoc]

theorem aggregateFrom_allTests (ignoredlist expectedFailures : blacklist)
    (maybeAddGithubLink : String → String) (l : List (String × String)) :
    ∀ r : ormTestsResults,
      (aggregateFrom ignoredlist expectedFailures maybeAddGithubLink r l).allTests
        = r.allTests ++ l.map Prod.fst := by
  induction l with
  | nil => intro r; simp [aggregateFrom]
  | cons m l ih =>
    intro r
    rw [aggregateFrom_cons, ih, loopBody_allTests]
    simp

theorem aggregateFrom_counter_perm (ignoredlist expectedFailures : blacklist)
    (maybeAddGithubLink : String → String) (c : Category)
    {l₁ l₂ : List (String × String)} (h : l₁.Perm l₂) :
    counter c (aggregateFrom ignoredlist expectedFailures maybeAddGithubLink
        newORMTestsResults l₁)
      = counter c (aggregateFrom ignoredlist expectedFailures maybeAddGithubLink
        newORMTestsResults l₂) := by
  induction h with
  | nil => rfl
  | cons x _ ih =>
    rw [aggregateFrom_cons, aggregateFrom_cons, aggregateFrom_counter _ _ _ c _ (loopBody _ _ _ _ _ _),
      aggregateFrom_counter _ _ _ c _ (loopBody _ _ _ _ _ _), ih]
  | swap x y l =>
    simp only [aggregateFrom_cons]
    rw [aggregateFrom_counter _ _ _ c l (loopBody _ _ _ _ _ _),
      aggregateFrom_counter _ _ _ c l (loopBody _ _ _ (loopBody _ _ _ _ x.1 x.2) _ _),
      loopBody_counter _ _ _ (loopBody _ _ _ _ y.1 y.2),
      loopBody_counter _ _ _ (loopBody _ _ _ _ x.1 x.2)]
    omega
  | trans _ _ ih₁ ih₂ => exact ih₁.trans ih₂

theorem aggregateFrom_currentFailures_perm (ignoredlist expectedFailures : blacklist)
    (maybeAddGithubLink : String → String)
    {l₁ l₂ : List (String × String)} (h : l₁.Perm l₂) :
    (aggregateFrom ignoredlist expectedFailures maybeAddGithubLink
        newORMTestsResults l₁).currentFailures.Perm
      (aggregateFrom ignoredlist expectedFailures maybeAddGithubLink
        newORMTestsResults l₂).currentFailures := by
  induction h with
  | nil => exact List.Perm.refl _
  | cons x _ ih =>
    rw [aggregateFrom_cons, aggregateFrom_cons,
      aggregateFrom_currentFailures _ _ _ _ (loopBody _ _ _ _ _ _),
      aggregateFrom_currentFailures _ _ _ _ (loopBody _ _ _ _ _ _)]
    exact List.Perm.append_left _ ih
  | swap x y l =>
    simp only [aggregateFrom_cons]
    rw [aggregateFrom_currentFailures _ _ _ l (loopBody _ _ _ _ _ _),
      aggregateFrom_currentFailures _ _ _ l (loopBody _ _ _ (loopBody _ _ _ _ x.1 x.2) _ _),
      loopBody_currentFailures _ _ _ (loopBody _ _ _ _ y.1 y.2),
      loopBody_currentFailures _ _ _ (loopBody _ _ _ _ x.1 x.2)]
    exact List.Perm.append_right _ List.perm_append_comm
  | trans _ _ ih₁ ih₂ => exact ih₁.trans ih₂

/-- Claim C8, as stated, fails when a test identifier is repeated with different
outcomes: the two orders of the lines `test.suite::Case::dup PASSED` and
`test.suite::Case::dup FAILED` store different verdicts for the identifier, hence give
different ResultSets. Moreover `currentFailures` is a slice in stream order: two failing
lines with different identifiers give `[a, b]` in one order and `[b, a]` in the other. -/
theorem C8_counterexample :
    (bufioScan "test.suite::Case::dup PASSED\ntest.suite::Case::dup FAILED\n"
        = ["test.suite::Case::dup PASSED", "test.suite::Case::dup FAILED"] ∧
      bufioScan "test.suite::Case::dup FAILED\ntest.suite::Case::dup PASSED\n"
        = ["test.suite::Case::dup FAILED", "test.suite::Case::dup PASSED"] ∧
      ["test.suite::Case::dup PASSED", "test.suite::Case::dup FAILED"].Perm
        ["test.suite::Case::dup FAILED", "test.suite::Case::dup PASSED"] ∧
      (runSQLAlchemy GoMap.empty GoMap.empty id
        "test.suite::Case::dup PASSED\ntest.suite::Case::dup FAILED\n").results
        "test.suite::Case::dup" = some "--- FAIL: test.suite::Case::dup (unexpected)" ∧
      (runSQLAlchemy GoMap.empty GoMap.empty id
        "test.suite::Case::dup FAILED\ntest.suite::Case::dup PASSED\n").results
        "test.suite::Case::dup" = some "--- PASS: test.suite::Case::dup (expected)" ∧
      runSQLAlchemy GoMap.empty GoMap.empty id
          "test.suite::Case::dup PASSED\ntest.suite::Case::dup FAILED\n"
        ≠ runSQLAlchemy GoMap.empty GoMap.empty id
          "test.suite::Case::dup FAILED\ntest.suite::Case::dup PASSED\n") ∧
    (bufioScan "test.suite::Case::a FAILED\ntest.suite::Case::b FAILED\n"
        = ["test.suite::Case::a FAILED", "test.suite::Case::b FAILED"] ∧
      bufioScan "test.suite::Case::b FAILED\ntest.suite::Case::a FAILED\n"
        = ["test.suite::Case::b FAILED", "test.suite::Case::a FAILED"] ∧
      ["test.suite::Case::a FAILED", "test.suite::Case::b FAILED"].Perm
        ["test.suite::Case::b FAILED", "test.suite::Case::a FAILED"] ∧
      (runSQLAlchemy GoMap.empty GoMap.empty id
        "test.suite::Case::a FAILED\ntest.suite::Case::b FAILED\n").currentFailures
        = ["test.suite::Case::a", "test.suite::Case::b"] ∧
      (runSQLAlchemy GoMap.empty GoMap.empty id
        "test.suite::Case::b FAILED\ntest.suite::Case::a FAILED\n").currentFailures
        = ["test.suite::Case::b", "test.suite::Case::a"]) := by
  refine ⟨⟨by decide, by decide, List.Perm.swap _ _ _, by decide, by decide, fun h => ?_⟩,
    by decide, by decide, List.Perm.swap _ _ _, by decide, by decide⟩
  have h2 := congrArg (fun r => r.results "test.suite::Case::dup") h
  revert h2
  decide

/-- Claim C8, amended: for every permutation of a sequence of matched lines the loop
produces the same seven counters, the same set `runTests`, and the same identifiers
with the same multiplicities in `currentFailures` and `allTests` (their order follows
the stream); the verdict stored for an identifier is the same in both orders whenever
all lines of the sequence that carry this identifier have the same status, in
particular when the identifier occurs once. -/
theorem C8_aggregate_perm (ignoredlist expectedFailures : blacklist)
    (maybeAddGithubLink : String → String) (l₁ l₂ : List (String × String))
    (h : l₁.Perm l₂) :
    (∀ c, counter c (aggregateFrom ignoredlist expectedFailures maybeAddGithubLink
          newORMTestsResults l₁)
        = counter c (aggregateFrom ignoredlist expectedFailures maybeAddGithubLink
          newORMTestsResults l₂)) ∧
    (aggregateFrom ignoredlist expectedFailures maybeAddGithubLink
          newORMTestsResults l₁).runTests
      = (aggregateFrom ignoredlist expectedFailures maybeAddGithubLink
          newORMTestsResults l₂).runTests ∧
    (aggregateFrom ignoredlist expectedFailures maybeAddGithubLink
          newORMTestsResults l₁).currentFailures.Perm
      (aggregateFrom ignoredlist expectedFailures maybeAddGithubLink
          newORMTestsResults l₂).currentFailures ∧
    (aggregateFrom ignoredlist expectedFailures maybeAddGithubLink
          newORMTestsResults l₁).allTests.Perm
      (aggregateFrom ignoredlist expectedFailures maybeAddGithubLink
          newORMTestsResults l₂).allTests ∧
    (∀ k, (∀ a ∈ l₁, ∀ b ∈ l₁, a.1 = k → b.1 = k → a.2 = b.2) →
      (aggregateFrom ignoredlist expectedFailures maybeAddGithubLink
          newORMTestsResults l₁).results k
        = (aggregateFrom ignoredlist expectedFailures maybeAddGithubLink
          newORMTestsResults l₂).results k) := by
  have hkeys : ∀ k, k ∈ l₁.map Prod.fst ↔ k ∈ l₂.map Prod.fst :=
    fun k => (h.map Prod.fst).mem_iff
  refine ⟨fun c => aggregateFrom_counter_perm _ _ _ c h, ?_,
    aggregateFrom_currentFailures_perm _ _ _ h, ?_, fun k hk => ?_⟩
  · funext k
    rw [aggregateFrom_runTests, aggregateFrom_runTests]
    by_cases hm : k ∈ l₁.map Prod.fst
    · rw [if_pos hm, if_pos ((hkeys k).mp hm)]
    · rw [if_neg hm, if_neg (fun h2 => hm ((hkeys k).mpr h2))]
  · rw [aggregateFrom_allTests, aggregateFrom_allTests]
    exact List.Perm.append_left _ (h.map Prod.fst)
  · by_cases hm : k ∈ l₁.map Prod.fst
    · obtain ⟨pre₁, m₁, post₁, e₁, hk₁, hp₁⟩ := exists_last_occurrence k l₁ hm
      obtain ⟨pre₂, m₂, post₂, e₂, hk₂, hp₂⟩ := exists_last_occurrence k l₂ ((hkeys k).mp hm)
      have hm₁ : m₁ ∈ l₁ := by rw [e₁]; simp
      have hm₂ : m₂ ∈ l₁ := h.mem_iff.mpr (by rw [e₂]; simp)
      have hst : m₁.2 = m₂.2 := hk m₁ hm₁ m₂ hm₂ hk₁ hk₂
      have hmm : m₁ = m₂ := Prod.ext (hk₁.trans hk₂.symm) hst
      subst hmm
      subst hk₁
      rw [e₁, e₂, aggregateFrom_results_last _ _ _ _ pre₁ post₁ m₁ hp₁,
        aggregateFrom_results_last _ _ _ _ pre₂ post₂ m₁ hp₂]
    · have hm2 : ¬ k ∈ l₂.map Prod.fst := fun h2 => hm ((hkeys k).mpr h2)
      have n₁ := aggregateFrom_results_of_not_mem ignoredlist expectedFailures
        maybeAddGithubLink k l₁
        (fun x hx hxk => hm (List.mem_map.mpr ⟨x, hx, hxk⟩)) newORMTestsResults
      have n₂ := aggregateFrom_results_of_not_mem ignoredlist expectedFailures
        maybeAddGithubLink k l₂
        (fun x hx hxk => hm2 (List.mem_map.mpr ⟨x, hx, hxk⟩)) newORMTestsResults
      rw [n₁, n₂]

/-- Witness for C8 (amended): two lines with different identifiers, in both orders. -/
theorem C8_aggregate_perm_witness :
    [("test.suite::Case::a", "FAILED"), ("test.suite::Case::b", "PASSED")].Perm
      [("test.suite::Case::b", "PASSED"), ("test.suite::Case::a", "FAILED")] ∧
    (∀ c, counter c (aggregateFrom GoMap.empty GoMap.empty id newORMTestsResults
          [("test.suite::Case::a", "FAILED"), ("test.suite::Case::b", "PASSED")])
        = counter c (aggregateFrom GoMap.empty GoMap.empty id newORMTestsResults
          [("test.suite::Case::b", "PASSED"), ("test.suite::Case::a", "FAILED")])) :=
  ⟨List.Perm.swap _ _ _,
   (C8_aggregate_perm GoMap.empty GoMap.empty id
      [("test.suite::Case::a", "FAILED"), ("test.suite::Case::b", "PASSED")]
      [("test.suite::Case::b", "PASSED"), ("test.suite::Case::a", "FAILED")]
      (List.Perm.swap _ _ _)).1⟩

end SQLAlchemy
